import Mathlib

/-!
Verification of the ivy backend-dispatch / promotion layer against its
torch-backend linear-algebra implementation (src/ivy/functional/backends/
torch/linear_algebra.py), the unified wrappers (src/ivy/functional/ivy/
linear_algebra.py) and the container layer (src/ivy/container/norms.py).

Pure fragments of the Python source are embedded shallowly as Lean
functions; external torch kernels (cholesky, inverse, matrix_norm, ...)
are taken as function parameters, since the spec places the numeric
kernels themselves out of scope.  Components of ivy's core that are not
part of the sources under src/ (the promotion resolver, the
with_unsupported_dtypes decorator, inplace_update, the container
broadcast engine) are modelled from the spec and marked as such.
-/

namespace IvySpec

/-- Dtype tags: the fixed enumeration from the data model (spec section 3). -/
inductive Dtype where
  | bool
  | uint8
  | int8
  | int16
  | int32
  | int64
  | float16
  | bfloat16
  | float32
  | float64
deriving DecidableEq, Repr

/-- Whether a dtype is a floating-point (inexact) dtype. -/
def Dtype.isFloat : Dtype → Bool
  | .float16 | .bfloat16 | .float32 | .float64 => true
  | _ => false

/-- Bit width of a dtype. -/
def Dtype.width : Dtype → Nat
  | .bool => 1
  | .uint8 => 8
  | .int8 => 8
  | .int16 => 16
  | .int32 => 32
  | .int64 => 64
  | .float16 => 16
  | .bfloat16 => 16
  | .float32 => 32
  | .float64 => 64

/-- Modelled from the spec: the dtype promotion resolver (spec 4.1,
`ivy.promote_types`, which is not among the sources under src/).  Total on
the enumeration; same-dtype pairs are identity; mixed integer/float
promotion favors the float branch; promotion across inexact widths favors
the widest. -/
def promote (a b : Dtype) : Dtype :=
  if a = b then a
  else if a.isFloat && b.isFloat then
    if a.width < b.width then b
    else if b.width < a.width then a
    else Dtype.float32
  else if a.isFloat then a
  else if b.isFloat then b
  else if a.width < b.width then b
  else if b.width < a.width then a
  else Dtype.int16

/-- Modelled from the spec: `ivy.promote_types_of_inputs` (spec 4.5 stage 2,
not among the sources under src/) casts both operands up to the promoted
dtype and returns the cast pair. -/
def promote_types_of_inputs (d1 d2 : Dtype) : Dtype × Dtype :=
  (promote d1 d2, promote d1 d2)

/-- Dtype in which the torch backend's matmul hands each operand to
torch.matmul: the source calls ivy.promote_types_of_inputs on x1, x2
immediately before the native call. -/
def matmulKernelOperandDtype (d1 d2 : Dtype) : Dtype :=
  (promote_types_of_inputs d1 d2).1

/-- Dtype in which the torch backend's inner hands each operand to
torch.inner (source promotes via ivy.promote_types_of_inputs). -/
def innerKernelOperandDtype (d1 d2 : Dtype) : Dtype :=
  (promote_types_of_inputs d1 d2).1

/-- Dtype in which the torch backend's outer hands each operand to
torch.outer (source promotes via ivy.promote_types_of_inputs). -/
def outerKernelOperandDtype (d1 d2 : Dtype) : Dtype :=
  (promote_types_of_inputs d1 d2).1

/-- Dtype in which the torch backend's cross hands each operand to
torch.linalg.cross (source promotes via ivy.promote_types_of_inputs). -/
def crossKernelOperandDtype (d1 d2 : Dtype) : Dtype :=
  (promote_types_of_inputs d1 d2).1

/-- Dtype in which the torch backend's solve hands each operand to
torch.linalg.solve (source promotes via ivy.promote_types_of_inputs). -/
def solveKernelOperandDtype (d1 d2 : Dtype) : Dtype :=
  (promote_types_of_inputs d1 d2).1

/-- Dtype in which the torch backend's tensordot hands each operand to
torch.tensordot: the source computes the promoted dtype but then converts
both operands unconditionally with x.type(torch.float32). -/
def tensordotKernelOperandDtype (_d1 _d2 : Dtype) : Dtype :=
  Dtype.float32

/-- Result dtype of the torch backend's tensordot: the float32 kernel
result is cast back with .type(dtype) to the promoted dtype. -/
def tensordotResultDtype (d1 d2 : Dtype) : Dtype :=
  promote d1 d2

/-- Python equality between a native torch dtype object and a str value:
torch.dtype objects never compare equal to strings, so the comparison is
False for every pair. -/
def pyDtypeEqStr (_d : Dtype) (_s : String) : Bool :=
  false

/-- Dtype in which the torch backend's vecdot hands each operand to
torch.tensordot: the guard `dtype != "float64"` compares the native torch
dtype object against a Python string, which never holds, so the
.to(torch.float32) conversion runs for every promoted dtype. -/
def vecdotKernelOperandDtype (d1 d2 : Dtype) : Dtype :=
  let dtype := promote d1 d2
  if pyDtypeEqStr dtype "float64" then dtype else Dtype.float32

/-- Result dtype of the torch backend's vecdot: the kernel result is cast
back with .to(dtype) to the promoted dtype. -/
def vecdotResultDtype (d1 d2 : Dtype) : Dtype :=
  promote d1 d2

/-- Shallow embedding of torch.t on a one-dimensional tensor: identity. -/
def torchT1d (v : List ℤ) : List ℤ := v

/-- Shallow embedding of torch.matmul on two one-dimensional tensors: the
inner (dot) product, a zero-dimensional scalar. -/
def torchMatmul1d (v w : List ℤ) : ℤ :=
  (List.zipWith (· * ·) v w).sum

/-- Torch-backend matmul at rank 1 (integer operand values are unchanged by
same-dtype promotion): apply the transpose flags, promote, call the
kernel. -/
def matmul (v w : List ℤ) (transpose_a transpose_b : Bool) : ℤ :=
  let v := if transpose_a then torchT1d v else v
  let w := if transpose_b then torchT1d w else w
  torchMatmul1d v w

/-- Shallow embedding of torch.diagonal with dim1 = 0, dim2 = 1 on a rank-2
tensor given as a rectangular list of rows: for offset k ≥ 0 the entries
x[i][i+k], for k < 0 the entries x[i-k][i]. -/
def torchDiagonal (x : List (List ℤ)) (offset : ℤ) : List ℤ :=
  let rows := x.length
  let cols := (x.head?.map List.length).getD 0
  if 0 ≤ offset then
    let k := offset.toNat
    (List.range (min rows (cols - k))).filterMap
      (fun i => (x.get? i).bind (fun r => r.get? (i + k)))
  else
    let k := (-offset).toNat
    (List.range (min (rows - k) cols)).filterMap
      (fun i => (x.get? (i + k)).bind (fun r => r.get? i))

/-- Torch-backend trace with the source's default axes (axis1 = 0,
axis2 = 1): torch.diagonal followed by torch.sum. -/
def trace (x : List (List ℤ)) (offset : ℤ) : ℤ :=
  (torchDiagonal x offset).sum

/-- C1 counterexample: for two int64 operands the promoted dtype is int64
(identity on equal pairs), yet tensordot hands the kernel float32
operands; likewise vecdot hands float32 even for two float64 operands. -/
theorem tensordot_kernel_dtype_not_promoted :
    tensordotKernelOperandDtype Dtype.int64 Dtype.int64 ≠
      promote Dtype.int64 Dtype.int64 ∧
    vecdotKernelOperandDtype Dtype.float64 Dtype.float64 ≠
      promote Dtype.float64 Dtype.float64 := by
  decide

/-- C1 (amended): matmul, inner, outer, cross and solve hand both operands
to the native kernel in the promoted dtype; tensordot and vecdot instead
hand both operands in float32 (vecdot's float64 guard compares a torch
dtype against a string and never holds) and cast only the result back to
the promoted dtype. -/
theorem binary_op_kernel_dtypes (d1 d2 : Dtype) :
    matmulKernelOperandDtype d1 d2 = promote d1 d2 ∧
    innerKernelOperandDtype d1 d2 = promote d1 d2 ∧
    outerKernelOperandDtype d1 d2 = promote d1 d2 ∧
    crossKernelOperandDtype d1 d2 = promote d1 d2 ∧
    solveKernelOperandDtype d1 d2 = promote d1 d2 ∧
    tensordotKernelOperandDtype d1 d2 = Dtype.float32 ∧
    tensordotResultDtype d1 d2 = promote d1 d2 ∧
    vecdotKernelOperandDtype d1 d2 = Dtype.float32 ∧
    vecdotResultDtype d1 d2 = promote d1 d2 :=
  ⟨rfl, rfl, rfl, rfl, rfl, rfl, rfl, rfl, rfl⟩

/-- C6: matmul applied to the rank-1 arrays [2,0,3] and [4,1,8] (default
transpose flags) yields the scalar 32. -/
theorem matmul_rank1_example :
    matmul [2, 0, 3] [4, 1, 8] false false = 32 := by
  decide

/-- C7: trace applied to [[2,0,3],[3,5,6]] with offset 0 and the default
axes yields 7, the sum of the main diagonal [2, 5]. -/
theorem trace_example :
    trace [[2, 0, 3], [3, 5, 6]] 0 = 7 := by
  decide

/-- A native tensor object together with its Python object identity. -/
structure Buf (α : Type) where
  id : ℕ
  val : α
deriving DecidableEq, Repr

/-- Torch `out=` kernel-call protocol: with a buffer, the kernel writes the
result into the buffer and returns that very object; without one it
returns a fresh result object (identity tag 0 for fresh objects). -/
def nativeOut (v : α) : Option (Buf α) → Buf α
  | some b => ⟨b.id, v⟩
  | none => ⟨0, v⟩

/-- Modelled from the spec: ivy.inplace_update (spec 4.3; not among the
sources under src/) copies the computed result into the existing buffer's
storage, preserving the buffer's identity, and returns the buffer. -/
def inplace_update (b : Buf α) (v : α) : Buf α :=
  ⟨b.id, v⟩

/-- Torch-backend cholesky (source lines 21-36): the lower branch calls the
native kernel with out; the upper branch transposes the input, applies the
kernel, transposes back, and routes the result through ivy.inplace_update
when an out buffer was supplied.  The external torch.linalg.cholesky
kernel is a parameter. -/
def cholesky (kernel : Matrix (Fin n) (Fin n) ℚ → Matrix (Fin n) (Fin n) ℚ)
    (x : Matrix (Fin n) (Fin n) ℚ) (upper : Bool)
    (out : Option (Buf (Matrix (Fin n) (Fin n) ℚ))) :
    Buf (Matrix (Fin n) (Fin n) ℚ) :=
  if !upper then nativeOut (kernel x) out
  else
    let ret := (kernel x.transpose).transpose
    match out with
    | some b => inplace_update b ret
    | none => ⟨0, ret⟩

/-- Python truthiness of the guard expression `torch.linalg.det == 0` in
the source's inv (line 154): it compares the det function object itself,
never an applied determinant value, against the integer 0, so it is False
on every call. -/
def pyDetFunctionObjEqZero : Bool :=
  false

/-- Torch-backend inv (source lines 147-167), with the external
torch.inverse kernel as a parameter.  When the (dead) singular branch is
taken without an out buffer, the Python function falls through without a
return and yields None, modelled as none. -/
def inv (kernel : Matrix (Fin n) (Fin n) ℚ → Matrix (Fin n) (Fin n) ℚ)
    (x : Matrix (Fin n) (Fin n) ℚ) (adjoint : Bool)
    (out : Option (Buf (Matrix (Fin n) (Fin n) ℚ))) :
    Option (Buf (Matrix (Fin n) (Fin n) ℚ)) :=
  if pyDetFunctionObjEqZero then
    match out with
    | some b => some (inplace_update b x)
    | none => none
  else
    if adjoint = false then some (nativeOut (kernel x) out)
    else
      let ret := nativeOut (kernel x.transpose) out
      match out with
      | some b => some (inplace_update b ret.val)
      | none => some ret

/-- C3: for cholesky (both upper branches) and inv (both adjoint branches),
the call with a pre-allocated out buffer computes the same value as the
call without one, and the buffer-supplied call returns an object with the
identity of the buffer that was passed in. -/
theorem out_buffer_contract (n : ℕ)
    (kc ki : Matrix (Fin n) (Fin n) ℚ → Matrix (Fin n) (Fin n) ℚ)
    (x : Matrix (Fin n) (Fin n) ℚ) (b : Buf (Matrix (Fin n) (Fin n) ℚ)) :
    (cholesky kc x false (some b)).val = (cholesky kc x false none).val ∧
    (cholesky kc x false (some b)).id = b.id ∧
    (cholesky kc x true (some b)).val = (cholesky kc x true none).val ∧
    (cholesky kc x true (some b)).id = b.id ∧
    (inv ki x false (some b)).map Buf.val = (inv ki x false none).map Buf.val ∧
    (inv ki x false (some b)).map Buf.id = some b.id ∧
    (inv ki x true (some b)).map Buf.val = (inv ki x true none).map Buf.val ∧
    (inv ki x true (some b)).map Buf.id = some b.id :=
  ⟨rfl, rfl, rfl, rfl, rfl, rfl, rfl, rfl⟩

/-- Concrete singular matrix: both rows equal, so the determinant is 0. -/
def singularX : Matrix (Fin 2) (Fin 2) ℚ :=
  !![1, 1; 1, 1]

/-- Marker kernel whose output identifies that the native inverse kernel
was invoked. -/
def markerKernel : Matrix (Fin 2) (Fin 2) ℚ → Matrix (Fin 2) (Fin 2) ℚ :=
  fun _ => !![5, 5; 5, 5]

/-- C5: the singularity guard of inv is dead code.  For the singular input
singularX (determinant 0) the guard `torch.linalg.det == 0` still
evaluates to False, because it compares the det function object to 0
rather than the live determinant, so inv invokes the native inverse
kernel instead of taking the singular-matrix branch. -/
theorem inv_det_guard_dead :
    Matrix.det singularX = 0 ∧
    pyDetFunctionObjEqZero = false ∧
    inv markerKernel singularX false none = some ⟨0, markerKernel singularX⟩ := by
  refine ⟨?_, rfl, rfl⟩
  simp [singularX, Matrix.det_fin_two_of]

/-- C9: for a symmetric input x whose external cholesky kernel returns a
lower-triangular factor L with L * Lᵀ = x, the upper=true result is the
transpose of the upper=false result, and x = Uᵀ * U with U
upper-triangular. -/
theorem cholesky_upper_eq_transpose_lower (n : ℕ)
    (kernel : Matrix (Fin n) (Fin n) ℚ → Matrix (Fin n) (Fin n) ℚ)
    (x : Matrix (Fin n) (Fin n) ℚ)
    (hsym : x.transpose = x)
    (hfac : kernel x * (kernel x).transpose = x)
    (hlow : ∀ i j : Fin n, i < j → kernel x i j = 0) :
    (cholesky kernel x true none).val =
      ((cholesky kernel x false none).val).transpose ∧
    x = ((cholesky kernel x true none).val).transpose *
        (cholesky kernel x true none).val ∧
    (∀ i j : Fin n, j < i → (cholesky kernel x true none).val i j = 0) := by
  have hval : (cholesky kernel x true none).val = (kernel x).transpose := by
    show (kernel x.transpose).transpose = (kernel x).transpose
    rw [hsym]
  refine ⟨?_, ?_, ?_⟩
  · rw [hval]; rfl
  · rw [hval, Matrix.transpose_transpose]
    exact hfac.symm
  · intro i j hj
    rw [hval]
    exact hlow j i hj

/-- C9 witness: the identity kernel on the 1-by-1 identity matrix
satisfies the symmetric-factorization hypotheses, and the conclusion
evaluates there. -/
theorem cholesky_upper_eq_transpose_lower_witness :
    (cholesky (fun m => m) (1 : Matrix (Fin 1) (Fin 1) ℚ) true none).val =
      ((cholesky (fun m => m) (1 : Matrix (Fin 1) (Fin 1) ℚ) false none).val).transpose ∧
    (1 : Matrix (Fin 1) (Fin 1) ℚ) =
      ((cholesky (fun m => m) (1 : Matrix (Fin 1) (Fin 1) ℚ) true none).val).transpose *
        (cholesky (fun m => m) (1 : Matrix (Fin 1) (Fin 1) ℚ) true none).val ∧
    (∀ i j : Fin 1, j < i →
      (cholesky (fun m => m) (1 : Matrix (Fin 1) (Fin 1) ℚ) true none).val i j = 0) :=
  cholesky_upper_eq_transpose_lower 1 (fun m => m) 1
    (by simp) (by simp) (by decide)

/-- Error taxonomy kinds exercised by the claims (spec section 7), plus the
Python-level errors surfaced by the source. -/
inductive Err where
  | unsupportedDtype
  | keyMismatch
  | overflowError
deriving DecidableEq, Repr

/-- Backend version triple, as in the "1.11.0 and below" table keys. -/
structure Version where
  major : ℕ
  minor : ℕ
  patch : ℕ
deriving DecidableEq, Repr

/-- Lexicographic comparison implementing the "and below" version key. -/
def Version.le (a b : Version) : Bool :=
  if a.major ≠ b.major then decide (a.major < b.major)
  else if a.minor ≠ b.minor then decide (a.minor < b.minor)
  else decide (a.patch ≤ b.patch)

/-- Unsupported-dtype table attached to torch-backend cholesky (and det,
eigh) by the with_unsupported_dtypes decorator: float16 and bfloat16 for
torch versions 1.11.0 and below. -/
def choleskyUnsupported (v : Version) : List Dtype :=
  if Version.le v ⟨1, 11, 0⟩ then [Dtype.float16, Dtype.bfloat16] else []

/-- Unsupported-dtype table attached to torch-backend trace through the
trace.unsupported_dtypes attribute (source line 398), not keyed by
version. -/
def traceUnsupported : List Dtype :=
  [Dtype.float16, Dtype.bfloat16]

/-- Modelled from the spec: the with_unsupported_dtypes decorator and the
pipeline's unsupported-dtype stage (spec 4.5 stage 1; ivy.func_wrapper is
not among the sources under src/) check the operand dtype against the
operation's table and fail with UnsupportedDtype before any native
call. -/
def guardUnsupportedDtypes (table : List Dtype) (d : Dtype)
    (call : Unit → β) : Except Err β :=
  if d ∈ table then Except.error Err.unsupportedDtype
  else Except.ok (call ())

/-- Torch-backend cholesky behind its unsupported-dtype guard; the guarded
body (which would reach the native kernel) is the call parameter. -/
def choleskyGuarded (v : Version) (d : Dtype) (call : Unit → β) : Except Err β :=
  guardUnsupportedDtypes (choleskyUnsupported v) d call

/-- Torch-backend trace behind the pipeline's unsupported-dtype stage. -/
def traceGuarded (d : Dtype) (call : Unit → β) : Except Err β :=
  guardUnsupportedDtypes traceUnsupported d call

/-- C4: with an operand dtype listed in the operation's unsupported-dtype
table (float16 or bfloat16, under torch version 1.11.0 and below for the
version-keyed tables), the guarded operation fails with UnsupportedDtype
uniformly in the guarded body, hence before any native kernel call. -/
theorem unsupported_dtype_guard (v : Version) (d : Dtype)
    (hv : Version.le v ⟨1, 11, 0⟩ = true)
    (hd : d = Dtype.float16 ∨ d = Dtype.bfloat16) :
    (∀ (β : Type) (call : Unit → β),
      choleskyGuarded v d call = Except.error Err.unsupportedDtype) ∧
    (∀ (β : Type) (call : Unit → β),
      traceGuarded d call = Except.error Err.unsupportedDtype) := by
  have hmem : ∀ t : List Dtype, t = [Dtype.float16, Dtype.bfloat16] → d ∈ t := by
    intro t ht
    subst ht
    rcases hd with h | h <;> subst h <;> decide
  constructor <;> intro β call
  · simp only [choleskyGuarded, guardUnsupportedDtypes, choleskyUnsupported, hv,
      if_true]
    rw [if_pos (hmem _ rfl)]
  · simp only [traceGuarded, guardUnsupportedDtypes]
    rw [if_pos (hmem traceUnsupported rfl)]

/-- C4 witness: at torch version 1.11.0 with a float16 operand, the guarded
cholesky and trace both fail with UnsupportedDtype. -/
theorem unsupported_dtype_guard_witness :
    Version.le ⟨1, 11, 0⟩ ⟨1, 11, 0⟩ = true ∧
    choleskyGuarded ⟨1, 11, 0⟩ Dtype.float16 (fun _ => (0 : ℕ)) =
      Except.error Err.unsupportedDtype ∧
    traceGuarded Dtype.float16 (fun _ => (0 : ℕ)) =
      Except.error Err.unsupportedDtype :=
  ⟨by decide,
   (unsupported_dtype_guard ⟨1, 11, 0⟩ Dtype.float16 (by decide)
      (Or.inl rfl)).1 ℕ (fun _ => 0),
   (unsupported_dtype_guard ⟨1, 11, 0⟩ Dtype.float16 (by decide)
      (Or.inl rfl)).2 ℕ (fun _ => 0)⟩

/-- Python float values reaching matrix_norm's ord argument. -/
inductive PyFloat where
  | finite (q : ℚ)
  | inf
  | negInf
deriving DecidableEq, Repr

/-- Python int(...) applied to a float: truncation toward zero on finite
values, OverflowError on either infinity. -/
def pyIntOfFloat : PyFloat → Except Err ℤ
  | .finite q => Except.ok (if 0 ≤ q then Int.floor q else Int.ceil q)
  | .inf => Except.error Err.overflowError
  | .negInf => Except.error Err.overflowError

/-- Values accepted by matrix_norm's ord parameter. -/
inductive MatrixNormOrd where
  | intOrd (n : ℤ)
  | floatOrd (f : PyFloat)
  | fro
  | nuc
deriving DecidableEq, Repr

/-- Torch-backend matrix_norm (source lines 195-206): a float ord is first
converted unconditionally with int(ord); only then is the external
torch.linalg.matrix_norm kernel (a parameter, receiving the converted
ord) invoked. -/
def matrix_norm (kernel : MatrixNormOrd → β) (ord : MatrixNormOrd) :
    Except Err β :=
  match ord with
  | .floatOrd f =>
      match pyIntOfFloat f with
      | .error e => .error e
      | .ok n => .ok (kernel (.intOrd n))
  | o => .ok (kernel o)

/-- C10: for ord = float('inf') or float('-inf'), matrix_norm fails with
OverflowError from the float-to-int conversion, uniformly in the kernel,
hence before any native kernel call. -/
theorem matrix_norm_inf_overflows (β : Type) (kernel : MatrixNormOrd → β) :
    matrix_norm kernel (.floatOrd .inf) = Except.error Err.overflowError ∧
    matrix_norm kernel (.floatOrd .negInf) = Except.error Err.overflowError :=
  ⟨rfl, rfl⟩

/-- Container: a nested ordered mapping whose leaf values are arrays (data
model, spec section 3).  Modelled from the spec: ContainerBase is not
among the sources under src/. -/
inductive Container (α : Type) where
  | leaf : α → Container α
  | node : List (String × Container α) → Container α

/-- Modelled from the spec: the Container broadcast engine (spec 4.6; not
among the sources under src/).  For every key of the primary container,
look the same key up in the other container (KeyMismatch when absent),
apply the operation to the per-key leaves, and assemble the results in
the primary container's key order; recursion depth is unbounded. -/
def broadcast2 (op : α → β → γ) :
    Container α → Container β → Except Err (Container γ)
  | .leaf a, .leaf b => .ok (.leaf (op a b))
  | .node [], .node _ => .ok (.node [])
  | .node ((k, sub) :: rest), .node kvs =>
      match kvs.lookup k with
      | none => .error Err.keyMismatch
      | some sub2 =>
        match broadcast2 op sub sub2, broadcast2 op (.node rest) (.node kvs) with
        | .ok r, .ok (.node rs) => .ok (.node ((k, r) :: rs))
        | .ok _, .ok (.leaf _) => .error Err.keyMismatch
        | .error e, _ => .error e
        | _, .error e => .error e
  | .leaf _, .node _ => .error Err.keyMismatch
  | .node _, .leaf _ => .error Err.keyMismatch
termination_by c1 _ => sizeOf c1
decreasing_by
  all_goals simp only [Container.node.sizeOf_spec, List.cons.sizeOf_spec,
    Prod.mk.sizeOf_spec]
  all_goals omega

/-- Container layer_norm (src/ivy/container/norms.py): it delegates to the
nestable ivy.layer_norm, i.e. broadcasts the plain-array layer_norm over
the container, with the per-key parameters (normalized_idxs, new_std,
bias, ...) supplied through a parallel container.  The plain-array
layer_norm itself is not among the sources under src/, so it is a
parameter ln taking the leaf and its packed per-key parameters. -/
def layer_norm (ln : α → ρ → α) (x : Container α) (params : Container ρ) :
    Except Err (Container α) :=
  broadcast2 ln x params

/-- C2: broadcasting an operation over two containers with the identical
key set {a, b} yields the container of per-key results in the same key
order, and container layer_norm with per-key parameter containers
produces, for every key, exactly the plain-array layer_norm of that key's
leaf with that key's parameters. -/
theorem container_broadcast_two_keys (op : α → β → γ) (ln : α → ρ → α)
    (Xa Xb : α) (Ya Yb : β) (Pa Pb : ρ) :
    broadcast2 op (.node [("a", .leaf Xa), ("b", .leaf Xb)])
        (.node [("a", .leaf Ya), ("b", .leaf Yb)]) =
      .ok (.node [("a", .leaf (op Xa Ya)), ("b", .leaf (op Xb Yb))]) ∧
    layer_norm ln (.node [("a", .leaf Xa), ("b", .leaf Xb)])
        (.node [("a", .leaf Pa), ("b", .leaf Pb)]) =
      .ok (.node [("a", .leaf (ln Xa Pa)), ("b", .leaf (ln Xb Pb))]) := by
  constructor <;> simp [layer_norm, broadcast2, List.lookup]

/-- Result shape of torch.linalg.vector_norm with axis=None: the reduction
runs over every entry, leaving the all-ones shape under keepdims and the
zero-dimensional scalar shape otherwise. -/
def torchVectorNormShapeAxisNone (xshape : List ℕ) (keepdims : Bool) :
    List ℕ :=
  if keepdims then xshape.map (fun _ => 1) else []

/-- Shape returned by the torch backend's vector_norm with axis=None
(source lines 425-430): a zero-dimensional kernel result is unsqueezed to
the one-element shape [1]. -/
def vector_norm_shape (xshape : List ℕ) (keepdims : Bool) : List ℕ :=
  let s := torchVectorNormShapeAxisNone xshape keepdims
  if s = [] then [1] else s

/-- Value computed by torch.linalg.vector_norm with ord=2, axis=None on a
rank-1 tensor: the Euclidean norm of the entries (real-valued
idealization of the float computation); torch.unsqueeze leaves the value
itself unchanged. -/
noncomputable def vector_norm_val (x : List ℝ) : ℝ :=
  Real.sqrt ((x.map (fun t => t ^ 2)).sum)

/-- C8 counterexample: on the length-2 vector [3,4] with axis=None and
keepdims=False the torch backend returns shape [1], not the
zero-dimensional shape [] the claim asserts, because the source
unsqueezes zero-dimensional results. -/
theorem vector_norm_result_not_zero_dim :
    vector_norm_shape [2] false = [1] ∧ vector_norm_shape [2] false ≠ [] := by
  constructor
  · rfl
  · decide

/-- C8 (amended): vector_norm on [3,4] with ord=2, axis=None,
keepdims=False yields the value 5, returned as a one-dimensional
single-element array of shape [1] (the backend unsqueezes the
zero-dimensional kernel result). -/
theorem vector_norm_example :
    vector_norm_val [3, 4] = 5 ∧ vector_norm_shape [2] false = [1] := by
  refine ⟨?_, rfl⟩
  show Real.sqrt (((3 : ℝ) ^ 2) + ((4 : ℝ) ^ 2 + 0)) = 5
  rw [show ((3 : ℝ) ^ 2) + ((4 : ℝ) ^ 2 + 0) = 5 ^ 2 by norm_num]
  exact Real.sqrt_sq (by norm_num)

end IvySpec
